/-
  Verification of bazel-aws-maven-proxy's credential freshness coordinator.

  Shallow embedding of the three scripts:
  - credential-monitor/monitor.py   (CredentialEventHandler debounce / restart)
  - credential-renewer/renewer.py   (token discovery, expiry check, renewal loop)
  - sso-authenticator/authenticator.py (browser login retry, env-file update)

  Machine time is modelled as `Int` seconds; filesystem contents as explicit
  inductive data; exceptions as `Except` / sum-like outcomes.
-/
import Mathlib

namespace Monitor

/-- A filesystem modification event as delivered by watchdog to
`CredentialEventHandler.on_modified`: the source path, whether it is a
directory event, and the wall-clock instant `time.time()` at which the
handler processes it. -/
structure MonitorEvent where
  srcPath : String
  isDirectory : Bool
  time : Int
  deriving DecidableEq, Repr

/-- The static path configuration of monitor.py: CREDENTIAL_FILE, CONFIG_FILE
and SSO_CACHE_DIR (all derived from AWS_DIR). -/
structure MonitorConfig where
  credentialFile : String
  configFile : String
  ssoCacheDir : String
  deriving DecidableEq, Repr

/-- The mutable state of `CredentialEventHandler`: `last_event_time` (set to 0
in `__init__`) and `cooldown_period` (set to 5 in `__init__`). -/
structure HandlerState where
  last_event_time : Int
  cooldown_period : Int
  deriving DecidableEq, Repr

/-- The state `CredentialEventHandler.__init__` constructs. -/
def initState : HandlerState := { last_event_time := 0, cooldown_period := 5 }

/-- The path test on line 46-48 of monitor.py: the event path equals the
credentials file, equals the config file, or starts with the SSO cache dir
(`str.startswith`, here on the character list so concrete cases evaluate). -/
def watchedPath (cfg : MonitorConfig) (p : String) : Bool :=
  p == cfg.credentialFile || p == cfg.configFile ||
    (cfg.ssoCacheDir.data).isPrefixOf p.data

/-- `CredentialEventHandler.on_modified`. Returns the new handler state,
whether the event passed the cooldown check, and whether `_restart_s3proxy`
was invoked (the "credentials changed" signal). Mirrors the source order:
the cooldown check and the `last_event_time` update happen before the
directory check and the path check. -/
def on_modified (cfg : MonitorConfig) (st : HandlerState) (ev : MonitorEvent) :
    HandlerState × Bool × Bool :=
  if ev.time - st.last_event_time < st.cooldown_period then
    (st, false, false)
  else
    let st' : HandlerState := { st with last_event_time := ev.time }
    if ev.isDirectory then
      (st', true, false)
    else if watchedPath cfg ev.srcPath then
      (st', true, true)
    else
      (st', true, false)

/-- Run the handler over a list of events. Returns the final state, the times
of events that passed the cooldown check, and the times at which a
"credentials changed" signal (restart) was emitted. -/
def runHandler (cfg : MonitorConfig) : HandlerState → List MonitorEvent →
    HandlerState × List Int × List Int
  | st, [] => (st, [], [])
  | st, ev :: rest =>
    let r := on_modified cfg st ev
    let rec' := runHandler cfg r.1 rest
    (rec'.1,
     (if r.2.1 then ev.time :: rec'.2.1 else rec'.2.1),
     (if r.2.2 then ev.time :: rec'.2.2 else rec'.2.2))

end Monitor

namespace Renewer

/-- What reading and JSON-parsing a cached token file can yield, as observed
by `check_token_expiration`:
  * `unreadable`   — `open`/`json.load` raised;
  * `noExpiresAt`  — JSON loaded but has no `expiresAt` key;
  * `badExpiresAt` — `expiresAt` present but `fromisoformat` (or `.replace`)
                     raised on it;
  * `expiresAt t`  — a parsed, timezone-comparable expiry instant `t`. -/
inductive TokenFileContent where
  | unreadable
  | noExpiresAt
  | badExpiresAt
  | expiresAt (t : Int)
  deriving DecidableEq, Repr

/-- One file in the SSO cache directory: its name, `st_mtime`, and what
reading it yields. -/
structure CacheFile where
  name : String
  mtime : Int
  content : TokenFileContent
  deriving DecidableEq, Repr

/-- The SSO cache directory: absent (`os.path.exists` false) or present with
a list of files, in directory-iteration order. -/
inductive CacheDir where
  | absent
  | present (files : List CacheFile)
  deriving DecidableEq, Repr

/-- The `*.json` pattern of `Path.glob`: the file name ends in `.json`
(pathlib's `*` also matches an empty stem and hidden files). Implemented on
the character list so concrete cases evaluate. -/
def matchesJsonGlob (name : String) : Bool :=
  (".json".data).isSuffixOf name.data

/-- The files `Path(SSO_CACHE_DIR).glob('*.json')` returns. -/
def jsonFiles : CacheDir → List CacheFile
  | .absent => []
  | .present files => files.filter (fun f => matchesJsonGlob f.name)

/-- Python's `max(json_files, key=lambda f: f.stat().st_mtime)`: the first
element whose key is maximal (later elements replace only on strictly
greater key). -/
def maxByMtime : List CacheFile → Option CacheFile
  | [] => none
  | f :: fs => some (fs.foldl (fun acc g => if g.mtime > acc.mtime then g else acc) f)

/-- `find_sso_token_file`: None when the cache directory is missing; None when
no `*.json` files exist in it; otherwise the most recently modified one. -/
def find_sso_token_file (d : CacheDir) : Option CacheFile :=
  match d with
  | .absent => none
  | .present _ => maxByMtime (jsonFiles d)

/-- The renewer's view of the world at one check: the cache directory and the
current instant (`datetime.now` on the same clock as the expiry). -/
structure RenewerWorld where
  cache : CacheDir
  now : Int
  deriving DecidableEq, Repr

/-- `check_token_expiration` with RENEWAL_THRESHOLD = `threshold`: True when
no token file is found; True when the latest file is unreadable, lacks an
`expiresAt` key, or its timestamp does not parse (the exception is caught and
True returned); otherwise True iff `expiresAt - now < threshold`. -/
def check_token_expiration (threshold : Int) (w : RenewerWorld) : Bool :=
  match find_sso_token_file w.cache with
  | none => true
  | some tf =>
    match tf.content with
    | .unreadable => true
    | .noExpiresAt => true
    | .badExpiresAt => true
    | .expiresAt t => decide (t - w.now < threshold)

/-- What one iteration of `main`'s `while True` body encounters: either some
step of the cycle raises, or the cycle runs over a world `w` with the given
login outcome. -/
inductive CycleEnv where
  | raises
  | world (w : RenewerWorld) (loginOk : Bool)

/-- One cycle of `main`: returns the duration passed to `time.sleep` and
whether `perform_sso_login` was invoked. A raising cycle is caught by the
`except` clause and sleeps 60; a normal cycle invokes login exactly when
`check_token_expiration` is True and sleeps CHECK_INTERVAL = `ci`. -/
def renewCycle (threshold ci : Int) : CycleEnv → Int × Bool
  | .raises => (60, false)
  | .world w _ => (ci, check_token_expiration threshold w)

/-- The first `n` cycles of `main`'s `while True` loop: the loop body runs
unconditionally each iteration (nothing breaks out of it), so the trace of
`n` iterations always exists. -/
def renewalTrace (threshold ci : Int) (env : Nat → CycleEnv) : Nat → List (Int × Bool)
  | 0 => []
  | n + 1 => renewalTrace threshold ci env n ++ [renewCycle threshold ci (env n)]

end Renewer

namespace Authenticator

/-- How the browser-driven SSO flow proceeds once a browser is obtained, as
seen by `perform_sso_login` in authenticator.py:
  * `timeoutErr` — a `TimeoutException` while waiting for the login form or
    the post-login redirect (inner `except`, returns False);
  * `otherError` — any other exception during the flow (outer `except`,
    returns False);
  * `success`    — the redirect arrived (returns True). -/
inductive AuthFlow where
  | timeoutErr
  | otherError
  | success
  deriving DecidableEq, Repr

/-- The environment `perform_sso_login` runs against: whether SSO_USERNAME /
SSO_PASSWORD are set, whether `get_sso_config` succeeds, which browser
initialization attempts raise `WebDriverException` (attempt `i` fails iff
`initFails i`), and how the authentication flow itself ends. -/
structure BrowserEnv where
  haveUsername : Bool
  havePassword : Bool
  configOk : Bool
  initFails : Nat → Bool
  flow : AuthFlow

/-- The browser-initialization retry loop (`for attempt in range(MAX_RETRIES)`):
starting at attempt `i`, with `fuel` attempts of budget remaining. Returns the
index of the succeeding attempt (`none` when the final attempt's exception is
re-raised) and the number of 2-second `time.sleep(2)` delays performed. -/
def initRetryAux (env : BrowserEnv) (mr : Nat) : Nat → Nat → Option Nat × Nat
  | _, 0 => (none, 0)
  | i, fuel + 1 =>
    if env.initFails i then
      if i + 1 < mr then
        ((initRetryAux env mr (i + 1) fuel).1, (initRetryAux env mr (i + 1) fuel).2 + 1)
      else
        (none, 0)
    else
      (some i, 0)

/-- The full initialization retry loop from attempt 0 with MAX_RETRIES = `mr`. -/
def initRetry (env : BrowserEnv) (mr : Nat) : Option Nat × Nat :=
  initRetryAux env mr 0 mr

/-- What `perform_sso_login` in authenticator.py lets escape to its caller:
an `Except.error` is an exception raised past the call boundary, `Except.ok b`
is a normal return of `b`. -/
inductive LoginErr where
  | missingCredentials
  | configError
  | browserInitFailed
  deriving DecidableEq, Repr

/-- `perform_sso_login` (selenium variant): raises when credentials are
absent from the environment, raises when `get_sso_config` fails, re-raises
the `WebDriverException` when all MAX_RETRIES initialization attempts fail,
and otherwise returns True on a completed flow and False on a timeout or any
other in-flow exception. -/
def perform_sso_login_selenium (mr : Nat) (env : BrowserEnv) : Except LoginErr Bool :=
  if !env.haveUsername || !env.havePassword then
    .error .missingCredentials
  else if !env.configOk then
    .error .configError
  else
    match (initRetry env mr).1 with
    | none => .error .browserInitFailed
    | some _ =>
      match env.flow with
      | .timeoutErr => .ok false
      | .otherError => .ok false
      | .success => .ok true

/-- What one invocation of the CLI-driven `perform_sso_login` in renewer.py
encounters: `subprocess.run` (or anything in the `try` block) raises, or the
command exits with the given return code. -/
inductive CliEnv where
  | raises
  | exits (returncode : Int)
  deriving DecidableEq, Repr

/-- `perform_sso_login` (renewer.py, CLI variant): a single attempt with no
retry; True iff the command ran and exited 0; any exception is caught and
turned into False. Total — it never raises past the call boundary. -/
def perform_sso_login_cli : CliEnv → Bool
  | .raises => false
  | .exits rc => rc == 0

/-- The env-file line filter in `extract_and_update_credentials`: a line is
kept iff it starts with none of the three credential keys (`str.startswith`,
here on the character list so concrete cases evaluate). -/
def keepEnvLine (line : String) : Bool :=
  !(("AWS_ACCESS_KEY_ID=".data).isPrefixOf line.data ||
    ("AWS_SECRET_ACCESS_KEY=".data).isPrefixOf line.data ||
    ("AWS_SESSION_TOKEN=".data).isPrefixOf line.data)

/-- The env-file rewrite in `extract_and_update_credentials`, given the lines
read from ENV_FILE and the extracted values: drop lines starting with any of
the three keys, append the access-key and secret-key lines, and append a
session-token line only when the extracted token is non-empty. -/
def updateEnvLines (envLines : List String) (ak sk tok : String) : List String :=
  let kept := envLines.filter keepEnvLine
  let withKeys := kept ++
    ["AWS_ACCESS_KEY_ID=" ++ ak ++ "\n", "AWS_SECRET_ACCESS_KEY=" ++ sk ++ "\n"]
  if tok = "" then withKeys else withKeys ++ ["AWS_SESSION_TOKEN=" ++ tok ++ "\n"]

/-- `extract_and_update_credentials` restricted to its file-update effect:
`ak` and `sk` are the extracted access and secret keys, `tokRes` is the
session-token lookup (`none` models the `CalledProcessError` branch, which
sets it to the empty string), `prior` the current ENV_FILE lines. Returns
`none` when the function bails out before writing (empty access or secret
key), else the lines written back. -/
def extract_and_update_credentials (ak sk : String) (tokRes : Option String)
    (prior : List String) : Option (List String) :=
  let tok := match tokRes with
    | some s => s
    | none => ""
  if ak = "" || sk = "" then none
  else some (updateEnvLines prior ak sk tok)

end Authenticator

/-! ### Helper lemmas -/

namespace Renewer

theorem foldlMax_mem (fs : List CacheFile) :
    ∀ a, fs.foldl (fun acc g => if g.mtime > acc.mtime then g else acc) a ∈ a :: fs := by
  induction fs with
  | nil => intro a; simp
  | cons g gs ih =>
    intro a
    simp only [List.foldl_cons]
    by_cases hg : g.mtime > a.mtime
    · simp only [if_pos hg]
      exact List.mem_cons_of_mem a (ih g)
    · simp only [if_neg hg]
      rcases List.mem_cons.mp (ih a) with h | h
      · exact List.mem_cons.mpr (Or.inl h)
      · exact List.mem_cons_of_mem a (List.mem_cons_of_mem g h)

theorem foldlMax_ge (fs : List CacheFile) :
    ∀ a g, g ∈ a :: fs →
      g.mtime ≤ (fs.foldl (fun acc x => if x.mtime > acc.mtime then x else acc) a).mtime := by
  induction fs with
  | nil =>
    intro a g hg
    simp at hg
    rw [hg]
    simp
  | cons x xs ih =>
    intro a g hg
    simp only [List.foldl_cons]
    by_cases hx : x.mtime > a.mtime
    · simp only [if_pos hx]
      rcases List.mem_cons.mp hg with h | h
      · subst h
        have hxr := ih x x (List.mem_cons_self x xs)
        omega
      · rcases List.mem_cons.mp h with h2 | h2
        · subst h2
          exact ih g g (List.mem_cons_self g xs)
        · exact ih x g (List.mem_cons_of_mem x h2)
    · simp only [if_neg hx]
      rcases List.mem_cons.mp hg with h | h
      · subst h
        exact ih g g (List.mem_cons_self g xs)
      · rcases List.mem_cons.mp h with h2 | h2
        · subst h2
          have har := ih a a (List.mem_cons_self a xs)
          omega
        · exact ih a g (List.mem_cons_of_mem a h2)

theorem maxByMtime_spec (l : List CacheFile) (f : CacheFile) (h : maxByMtime l = some f) :
    f ∈ l ∧ ∀ g ∈ l, g.mtime ≤ f.mtime := by
  cases l with
  | nil => simp [maxByMtime] at h
  | cons a as =>
    simp only [maxByMtime, Option.some.injEq] at h
    subst h
    exact ⟨foldlMax_mem as a, fun g hg => foldlMax_ge as a g hg⟩

theorem maxByMtime_eq_none_iff (l : List CacheFile) : maxByMtime l = none ↔ l = [] := by
  cases l <;> simp [maxByMtime]

theorem check_eq_content (threshold : Int) (w : RenewerWorld) (f : CacheFile)
    (hf : find_sso_token_file w.cache = some f) :
    check_token_expiration threshold w =
      match f.content with
      | .unreadable => true
      | .noExpiresAt => true
      | .badExpiresAt => true
      | .expiresAt t => decide (t - w.now < threshold) := by
  unfold check_token_expiration
  rw [hf]

end Renewer

/-! ### Claims about the renewer's token discovery and expiry check -/

/-- C1: for a token whose latest cache file has a parseable expiry `t`,
`check_token_expiration` returns true iff `t - now < threshold`; in
particular a past expiry is due (for a non-negative threshold), an expiry
10s away with threshold 3600 is due, and an expiry 7200s away with
threshold 3600 is not due. -/
theorem c1_expiry_check (threshold : Int) (w : Renewer.RenewerWorld)
    (f : Renewer.CacheFile) (t : Int)
    (hf : Renewer.find_sso_token_file w.cache = some f)
    (hc : f.content = Renewer.TokenFileContent.expiresAt t) :
    (Renewer.check_token_expiration threshold w = true ↔ t - w.now < threshold)
    ∧ (0 ≤ threshold → t < w.now → Renewer.check_token_expiration threshold w = true)
    ∧ (threshold = 3600 → t = w.now + 10 → Renewer.check_token_expiration threshold w = true)
    ∧ (threshold = 3600 → t = w.now + 7200 → Renewer.check_token_expiration threshold w = false) := by
  have hck : Renewer.check_token_expiration threshold w = decide (t - w.now < threshold) := by
    rw [Renewer.check_eq_content threshold w f hf, hc]
  rw [hck]
  refine ⟨by simp, ?_, ?_, ?_⟩
  · intro h1 h2
    simp only [decide_eq_true_eq]
    omega
  · intro h1 h2
    simp only [decide_eq_true_eq]
    omega
  · intro h1 h2
    simp only [decide_eq_false_iff_not]
    omega

/-- C1 witness: one cache file expiring 10s from now, threshold 3600 → due. -/
theorem c1_expiry_check_witness :
    Renewer.check_token_expiration 3600
      { cache := Renewer.CacheDir.present
          [{ name := "tok.json", mtime := 100,
             content := Renewer.TokenFileContent.expiresAt 1010 }],
        now := 1000 } = true := by
  exact (c1_expiry_check 3600 _
    { name := "tok.json", mtime := 100, content := Renewer.TokenFileContent.expiresAt 1010 }
    1010 (by decide) rfl).2.2.1 rfl rfl

/-- C2: `find_sso_token_file` returns none exactly when no `*.json` file is
available (absent directory or no matching file), and any file it returns is
a matching file of maximal modification time. -/
theorem c2_latest_token (d : Renewer.CacheDir) :
    (Renewer.find_sso_token_file d = none ↔ Renewer.jsonFiles d = [])
    ∧ (∀ f, Renewer.find_sso_token_file d = some f →
        f ∈ Renewer.jsonFiles d ∧ ∀ g, g ∈ Renewer.jsonFiles d → g.mtime ≤ f.mtime) := by
  cases d with
  | absent =>
    refine ⟨by simp [Renewer.find_sso_token_file, Renewer.jsonFiles], ?_⟩
    intro f hf
    simp [Renewer.find_sso_token_file] at hf
  | present fs =>
    constructor
    · unfold Renewer.find_sso_token_file
      exact Renewer.maxByMtime_eq_none_iff _
    · intro f hf
      unfold Renewer.find_sso_token_file at hf
      have h := Renewer.maxByMtime_spec _ f hf
      exact ⟨h.1, fun g hg => h.2 g hg⟩

/-- C2 witness: among `a.json` (mtime 1), `b.txt` (mtime 9), `c.json`
(mtime 3), the file returned is `c.json`. -/
theorem c2_latest_token_witness :
    Renewer.find_sso_token_file (Renewer.CacheDir.present
      [{ name := "a.json", mtime := 1, content := Renewer.TokenFileContent.noExpiresAt },
       { name := "b.txt", mtime := 9, content := Renewer.TokenFileContent.noExpiresAt },
       { name := "c.json", mtime := 3, content := Renewer.TokenFileContent.noExpiresAt }])
      = some { name := "c.json", mtime := 3, content := Renewer.TokenFileContent.noExpiresAt }
    ∧ (1 : Int) ≤ 3 := by
  refine ⟨by decide, ?_⟩
  have h := (c2_latest_token (Renewer.CacheDir.present
      [{ name := "a.json", mtime := 1, content := Renewer.TokenFileContent.noExpiresAt },
       { name := "b.txt", mtime := 9, content := Renewer.TokenFileContent.noExpiresAt },
       { name := "c.json", mtime := 3, content := Renewer.TokenFileContent.noExpiresAt }])).2
    { name := "c.json", mtime := 3, content := Renewer.TokenFileContent.noExpiresAt }
    (by decide)
  exact h.2 { name := "a.json", mtime := 1, content := Renewer.TokenFileContent.noExpiresAt }
    (by decide)

/-- C3: `check_token_expiration` is true when no token file exists, and true
whenever the latest token file is unreadable, lacks an `expiresAt` key, or
has a malformed timestamp — regardless of modification time; the embedding
is a total function, so these cases never raise. -/
theorem c3_fail_open (threshold : Int) (w : Renewer.RenewerWorld) :
    (Renewer.find_sso_token_file w.cache = none →
      Renewer.check_token_expiration threshold w = true)
    ∧ (∀ f, Renewer.find_sso_token_file w.cache = some f →
        (f.content = Renewer.TokenFileContent.unreadable ∨
         f.content = Renewer.TokenFileContent.noExpiresAt ∨
         f.content = Renewer.TokenFileContent.badExpiresAt) →
        Renewer.check_token_expiration threshold w = true) := by
  constructor
  · intro h
    unfold Renewer.check_token_expiration
    rw [h]
  · intro f hf hc
    rw [Renewer.check_eq_content threshold w f hf]
    rcases hc with h | h | h <;> rw [h]

/-- C3 witness: an absent cache directory yields "renewal due". -/
theorem c3_fail_open_witness :
    Renewer.check_token_expiration 3600 { cache := Renewer.CacheDir.absent, now := 0 } = true := by
  exact (c3_fail_open 3600 { cache := Renewer.CacheDir.absent, now := 0 }).1 rfl

/-! ### Claims about the credential monitor's debounce -/

namespace Monitor

/-- The monitor's default path configuration with HOME=/root. -/
def cfgEx : MonitorConfig :=
  { credentialFile := "/root/.aws/credentials",
    configFile := "/root/.aws/config",
    ssoCacheDir := "/root/.aws/sso/cache" }

theorem on_modified_cooldown (cfg : MonitorConfig) (st : HandlerState) (ev : MonitorEvent) :
    (on_modified cfg st ev).1.cooldown_period = st.cooldown_period := by
  unfold on_modified
  by_cases h1 : ev.time - st.last_event_time < st.cooldown_period
  · simp [h1]
  · by_cases hd : ev.isDirectory
    · simp [h1, hd]
    · by_cases hw : watchedPath cfg ev.srcPath <;> simp [h1, hd, hw]

theorem on_modified_cases (cfg : MonitorConfig) (st : HandlerState) (ev : MonitorEvent) :
    (ev.time - st.last_event_time < st.cooldown_period ∧
      on_modified cfg st ev = (st, false, false))
    ∨ (st.last_event_time + st.cooldown_period ≤ ev.time ∧
        (on_modified cfg st ev).1 = { st with last_event_time := ev.time } ∧
        (on_modified cfg st ev).2.1 = true) := by
  unfold on_modified
  by_cases h1 : ev.time - st.last_event_time < st.cooldown_period
  · left
    simp [h1]
  · right
    refine ⟨by omega, ?_, ?_⟩
    · by_cases hd : ev.isDirectory
      · simp [h1, hd]
      · by_cases hw : watchedPath cfg ev.srcPath <;> simp [h1, hd, hw]
    · by_cases hd : ev.isDirectory
      · simp [h1, hd]
      · by_cases hw : watchedPath cfg ev.srcPath <;> simp [h1, hd, hw]

theorem on_modified_signal_passed (cfg : MonitorConfig) (st : HandlerState) (ev : MonitorEvent) :
    (on_modified cfg st ev).2.2 = true → (on_modified cfg st ev).2.1 = true := by
  intro h
  rcases on_modified_cases cfg st ev with ⟨_, heq⟩ | ⟨_, _, hpass⟩
  · rw [heq] at h
    exact absurd h (by simp)
  · exact hpass

theorem runHandler_cons (cfg : MonitorConfig) (st : HandlerState) (ev : MonitorEvent)
    (rest : List MonitorEvent) :
    runHandler cfg st (ev :: rest) =
      ((runHandler cfg (on_modified cfg st ev).1 rest).1,
       (if (on_modified cfg st ev).2.1 then
          ev.time :: (runHandler cfg (on_modified cfg st ev).1 rest).2.1
        else (runHandler cfg (on_modified cfg st ev).1 rest).2.1),
       (if (on_modified cfg st ev).2.2 then
          ev.time :: (runHandler cfg (on_modified cfg st ev).1 rest).2.2
        else (runHandler cfg (on_modified cfg st ev).1 rest).2.2)) := rfl

/-- Invariant of the event loop: all accepted (cooldown-passing) event times
lie at least one cooldown period after the state's last-event time, they are
pairwise at least one cooldown period apart, and the signal times form a
sublist of the accepted times. -/
theorem runHandler_spacing (cfg : MonitorConfig) (evs : List MonitorEvent) :
    ∀ st : HandlerState, 0 ≤ st.cooldown_period →
      (∀ s ∈ (runHandler cfg st evs).2.1,
        st.last_event_time + st.cooldown_period ≤ s)
      ∧ List.Pairwise (fun a b => a + st.cooldown_period ≤ b) (runHandler cfg st evs).2.1
      ∧ (runHandler cfg st evs).2.2.Sublist (runHandler cfg st evs).2.1 := by
  induction evs with
  | nil =>
    intro st _
    refine ⟨by simp [runHandler], by simp [runHandler], by simp [runHandler]⟩
  | cons ev rest ih =>
    intro st hcd
    rw [runHandler_cons]
    rcases on_modified_cases cfg st ev with ⟨_, heq⟩ | ⟨hge, hst, hpass⟩
    · simp only [heq]
      have h := ih st hcd
      simpa using h
    · have hcd' : (on_modified cfg st ev).1.cooldown_period = st.cooldown_period :=
        on_modified_cooldown cfg st ev
    -- the recursive call runs from the updated state
      have h := ih (on_modified cfg st ev).1 (by rw [hcd']; exact hcd)
      rw [hcd'] at h
      have hlast : (on_modified cfg st ev).1.last_event_time = ev.time := by
        rw [hst]
      rw [hlast] at h
      rw [hpass]
      simp only [if_true]
      refine ⟨?_, ?_, ?_⟩
      · intro s hs
        rcases List.mem_cons.mp hs with h1 | h1
        · omega
        · have := h.1 s h1
          omega
      · refine List.pairwise_cons.mpr ⟨fun s hs => h.1 s hs, h.2.1⟩
      · by_cases hsig : (on_modified cfg st ev).2.2 = true
        · rw [hsig]
          simp only [if_true]
          exact List.Sublist.cons₂ ev.time h.2.2
        · rw [Bool.not_eq_true] at hsig
          rw [hsig]
          simp only [Bool.false_eq_true, if_false]
          exact List.Sublist.cons ev.time h.2.2

end Monitor

/-- C5 counterexample: with the default initial state, a directory-level
event at time 10 emits no signal yet updates `last_event_time` from 0 to 10,
so non-signal events do not all leave the debounce state unchanged. -/
theorem c5_cex :
    (Monitor.on_modified Monitor.cfgEx { last_event_time := 0, cooldown_period := 5 }
        { srcPath := "/root/.aws", isDirectory := true, time := 10 }).2.2 = false
    ∧ (Monitor.on_modified Monitor.cfgEx { last_event_time := 0, cooldown_period := 5 }
        { srcPath := "/root/.aws", isDirectory := true, time := 10 }).1.last_event_time = 10 := by
  exact ⟨rfl, rfl⟩

/-- C5 amended: `last_event_time` is updated exactly when the event passes
the cooldown check — including directory-level events and events on
non-watched paths; only events within the cooldown window leave the state
unchanged. A signal is only ever emitted by a cooldown-passing event, and
such an event sets `last_event_time` to the event's time. -/
theorem c5_state_update (cfg : Monitor.MonitorConfig) (st : Monitor.HandlerState)
    (ev : Monitor.MonitorEvent) :
    (Monitor.on_modified cfg st ev).1 =
      (if ev.time - st.last_event_time < st.cooldown_period then st
       else { st with last_event_time := ev.time })
    ∧ ((Monitor.on_modified cfg st ev).2.2 = true →
        st.last_event_time + st.cooldown_period ≤ ev.time ∧
        (Monitor.on_modified cfg st ev).1.last_event_time = ev.time) := by
  rcases Monitor.on_modified_cases cfg st ev with ⟨hlt, heq⟩ | ⟨hge, hst, _⟩
  · refine ⟨?_, ?_⟩
    · rw [heq, if_pos hlt]
    · intro h
      rw [heq] at h
      exact absurd h (by simp)
  · refine ⟨?_, ?_⟩
    · rw [hst, if_neg (by omega)]
    · intro _
      refine ⟨hge, by rw [hst]⟩

/-- C5 witness: an event inside the cooldown window leaves the state
unchanged, and a passing watched-file event sets `last_event_time`. -/
theorem c5_state_update_witness :
    (Monitor.on_modified Monitor.cfgEx { last_event_time := 0, cooldown_period := 5 }
        { srcPath := "/root/.aws/credentials", isDirectory := false, time := 3 }).1 =
      { last_event_time := 0, cooldown_period := 5 } := by
  have h := (c5_state_update Monitor.cfgEx { last_event_time := 0, cooldown_period := 5 }
    { srcPath := "/root/.aws/credentials", isDirectory := false, time := 3 }).1
  rw [h]
  rfl

/-- C6: from the initial handler state (cooldown 5), two file events on a
watched path 1s apart yield exactly the one signal `[t]`, and two such
events 10s apart yield exactly the two signals `[t, t + 10]` (the first
event time `t` is at least 5, as any wall-clock instant is). -/
theorem c6_debounce_counts (cfg : Monitor.MonitorConfig) (p : String) (t : Int)
    (hw : Monitor.watchedPath cfg p = true) (ht : 5 ≤ t) :
    (Monitor.runHandler cfg Monitor.initState
        [{ srcPath := p, isDirectory := false, time := t },
         { srcPath := p, isDirectory := false, time := t + 1 }]).2.2 = [t]
    ∧ (Monitor.runHandler cfg Monitor.initState
        [{ srcPath := p, isDirectory := false, time := t },
         { srcPath := p, isDirectory := false, time := t + 10 }]).2.2 = [t, t + 10] := by
  have h0 : ¬ (t - (0:Int) < 5) := by omega
  have h1 : ¬ (t < (5:Int)) := by omega
  have h2 : t + 1 - t < (5:Int) := by omega
  have h3 : ¬ (t + 10 - t < (5:Int)) := by omega
  constructor <;>
    simp [Monitor.runHandler, Monitor.on_modified, Monitor.initState, hw, h0, h1, h2, h3]

/-- C6 witness: concrete default paths, events at times 100/101 and 100/110. -/
theorem c6_debounce_counts_witness :
    (Monitor.runHandler Monitor.cfgEx Monitor.initState
        [{ srcPath := "/root/.aws/credentials", isDirectory := false, time := 100 },
         { srcPath := "/root/.aws/credentials", isDirectory := false, time := 100 + 1 }]).2.2
      = [100]
    ∧ (Monitor.runHandler Monitor.cfgEx Monitor.initState
        [{ srcPath := "/root/.aws/credentials", isDirectory := false, time := 100 },
         { srcPath := "/root/.aws/credentials", isDirectory := false, time := 100 + 10 }]).2.2
      = [100, 100 + 10] := by
  exact c6_debounce_counts Monitor.cfgEx "/root/.aws/credentials" 100 (by decide) (by decide)

/-- C7: over any sequence of events none of which is on a watched path
(the credentials file, the config file, or a path under the SSO cache
directory), the handler emits no signal at all, from any state. -/
theorem c7_unwatched_never_signals (cfg : Monitor.MonitorConfig) (st : Monitor.HandlerState)
    (evs : List Monitor.MonitorEvent)
    (h : ∀ ev ∈ evs, Monitor.watchedPath cfg ev.srcPath = false) :
    (Monitor.runHandler cfg st evs).2.2 = [] := by
  induction evs generalizing st with
  | nil => rfl
  | cons ev rest ih =>
    have hev := h ev (List.mem_cons_self ev rest)
    have hrest : ∀ e ∈ rest, Monitor.watchedPath cfg e.srcPath = false :=
      fun e he => h e (List.mem_cons_of_mem ev he)
    have hsig : (Monitor.on_modified cfg st ev).2.2 = false := by
      unfold Monitor.on_modified
      by_cases h1 : ev.time - st.last_event_time < st.cooldown_period
      · simp [h1]
      · by_cases hd : ev.isDirectory
        · simp [h1, hd]
        · simp [h1, hd, hev]
    rw [Monitor.runHandler_cons, hsig]
    simp only [Bool.false_eq_true, if_false]
    exact ih _ hrest

/-- C7 witness: two events on unrelated paths yield no signal. -/
theorem c7_unwatched_never_signals_witness :
    (Monitor.runHandler Monitor.cfgEx Monitor.initState
        [{ srcPath := "/etc/passwd", isDirectory := false, time := 100 },
         { srcPath := "/root/notes.txt", isDirectory := false, time := 200 }]).2.2 = [] := by
  exact c7_unwatched_never_signals Monitor.cfgEx Monitor.initState
    [{ srcPath := "/etc/passwd", isDirectory := false, time := 100 },
     { srcPath := "/root/notes.txt", isDirectory := false, time := 200 }] (by decide)

/-- C10: from the initial handler state (cooldown 5), the accepted
(cooldown-passing) event times are pairwise at least 5 apart, and since the
restart signals are a sublist of the accepted events, no two restart
invocations ever occur within 5 seconds of each other. -/
theorem c10_min_signal_spacing (cfg : Monitor.MonitorConfig) (evs : List Monitor.MonitorEvent) :
    List.Pairwise (fun a b => a + 5 ≤ b) (Monitor.runHandler cfg Monitor.initState evs).2.1
    ∧ List.Pairwise (fun a b => a + 5 ≤ b) (Monitor.runHandler cfg Monitor.initState evs).2.2 := by
  have h := Monitor.runHandler_spacing cfg evs Monitor.initState (by norm_num [Monitor.initState])
  refine ⟨h.2.1, List.Pairwise.sublist h.2.2 h.2.1⟩

/-! ### Claims about the renewal loop and the login strategies -/

namespace Renewer

theorem renewalTrace_eq_map (threshold ci : Int) (env : Nat → CycleEnv) (n : Nat) :
    renewalTrace threshold ci env n =
      (List.range n).map (fun j => renewCycle threshold ci (env j)) := by
  induction n with
  | zero => rfl
  | succ m ih =>
    rw [renewalTrace, ih, List.range_succ, List.map_append]
    rfl

end Renewer

/-- C8: for any number `n` of iterations, the renewal loop's trace has
exactly `n` cycles — the `while True` body always runs again, so a raising
cycle never terminates the loop — a raising cycle sleeps the 60-second
recovery interval, and a normal cycle sleeps CHECK_INTERVAL and invokes
login exactly when the expiry check says renewal is due. -/
theorem c8_loop_resilient (threshold ci : Int) (env : Nat → Renewer.CycleEnv)
    (n i : Nat) (hi : i < n) (hr : env i = Renewer.CycleEnv.raises) :
    (Renewer.renewalTrace threshold ci env n).length = n
    ∧ (Renewer.renewalTrace threshold ci env n).getD i (0, false) = (60, false)
    ∧ (∀ j w lo, j < n → env j = Renewer.CycleEnv.world w lo →
        (Renewer.renewalTrace threshold ci env n).getD j (0, false) =
          (ci, Renewer.check_token_expiration threshold w)) := by
  have hmap := Renewer.renewalTrace_eq_map threshold ci env n
  refine ⟨by rw [hmap]; simp, ?_, ?_⟩
  · rw [hmap, List.getD_eq_getElem?_getD, List.getElem?_map, List.getElem?_range hi]
    simp [hr, Renewer.renewCycle]
  · intro j w lo hj hw
    rw [hmap, List.getD_eq_getElem?_getD, List.getElem?_map, List.getElem?_range hj]
    simp [hw, Renewer.renewCycle]

/-- C8 witness: a single all-raising cycle yields a length-1 trace whose
cycle slept 60 seconds. -/
theorem c8_loop_resilient_witness :
    (Renewer.renewalTrace 3600 900 (fun _ => Renewer.CycleEnv.raises) 1).length = 1
    ∧ (Renewer.renewalTrace 3600 900 (fun _ => Renewer.CycleEnv.raises) 1).getD 0 (0, false)
        = (60, false) := by
  have h := c8_loop_resilient 3600 900 (fun _ => Renewer.CycleEnv.raises) 1 0
    (by decide) rfl
  exact ⟨h.1, h.2.1⟩

namespace Authenticator

theorem initRetryAux_some_lt (env : BrowserEnv) (mr : Nat) :
    ∀ fuel i k, i < mr → (initRetryAux env mr i fuel).1 = some k → k < mr := by
  intro fuel
  induction fuel with
  | zero =>
    intro i k _ h
    simp [initRetryAux] at h
  | succ m ih =>
    intro i k hi h
    unfold initRetryAux at h
    by_cases hf : env.initFails i
    · rw [if_pos hf] at h
      by_cases hlt : i + 1 < mr
      · rw [if_pos hlt] at h
        exact ih (i + 1) k hlt h
      · rw [if_neg hlt] at h
        simp at h
    · rw [if_neg hf] at h
      simp only [Option.some.injEq] at h
      omega

theorem initRetryAux_all_fail (env : BrowserEnv) (mr : Nat)
    (hfail : ∀ j, j < mr → env.initFails j = true) :
    ∀ fuel i, i < mr → mr = i + fuel → initRetryAux env mr i fuel = (none, mr - 1 - i) := by
  intro fuel
  induction fuel with
  | zero =>
    intro i hi hsum
    omega
  | succ m ih =>
    intro i hi hsum
    unfold initRetryAux
    rw [if_pos (hfail i hi)]
    by_cases hlt : i + 1 < mr
    · rw [if_pos hlt, ih (i + 1) hlt (by omega)]
      refine Prod.ext rfl ?_
      show mr - 1 - (i + 1) + 1 = mr - 1 - i
      omega
    · rw [if_neg hlt]
      refine Prod.ext rfl ?_
      show 0 = mr - 1 - i
      omega

theorem initRetry_all_fail (env : BrowserEnv) (mr : Nat) (hmr : 1 ≤ mr)
    (hfail : ∀ j, j < mr → env.initFails j = true) :
    initRetry env mr = (none, mr - 1) := by
  have h := initRetryAux_all_fail env mr hfail mr 0 (by omega) (by omega)
  unfold initRetry
  rw [h]
  refine Prod.ext rfl ?_
  show mr - 1 - 0 = mr - 1
  omega

end Authenticator

/-- C4 counterexample: with credentials and configuration present but every
browser-initialization attempt failing, the selenium login does not report a
Failure result — the `WebDriverException` is re-raised past the
`perform_sso_login` boundary (modelled as `Except.error`), contrary to the
claim that no login failure ever propagates as a raised exception. -/
theorem c4_cex :
    Authenticator.perform_sso_login_selenium 3
      { haveUsername := true, havePassword := true, configOk := true,
        initFails := fun _ => true, flow := Authenticator.AuthFlow.success }
      = Except.error Authenticator.LoginErr.browserInitFailed := rfl

/-- C4 amended: only browser initialization is retried, up to MAX_RETRIES
attempts with a fixed 2-second delay after each failed non-final attempt
(`initRetry` reports `mr - 1` delays when all attempts fail); when every
attempt fails the exception propagates out of `perform_sso_login` rather
than becoming a Failure result; an authentication failure after a
successful initialization (timeout or any other in-flow error) is not
retried and is returned as the Failure result `ok false`; the CLI strategy
in renewer.py makes a single attempt, never raises (it is a total function
into `Bool`), and returns success exactly for exit code 0. -/
theorem c4_login_retry (mr : Nat) (env : Authenticator.BrowserEnv) (hmr : 1 ≤ mr)
    (hU : env.haveUsername = true) (hP : env.havePassword = true)
    (hC : env.configOk = true) :
    (∀ k, (Authenticator.initRetry env mr).1 = some k → k < mr)
    ∧ ((∀ j, j < mr → env.initFails j = true) →
        Authenticator.initRetry env mr = (none, mr - 1)
        ∧ Authenticator.perform_sso_login_selenium mr env =
            Except.error Authenticator.LoginErr.browserInitFailed)
    ∧ ((Authenticator.initRetry env mr).1.isSome = true →
        env.flow ≠ Authenticator.AuthFlow.success →
        Authenticator.perform_sso_login_selenium mr env = Except.ok false)
    ∧ Authenticator.perform_sso_login_cli Authenticator.CliEnv.raises = false
    ∧ (∀ rc, Authenticator.perform_sso_login_cli (Authenticator.CliEnv.exits rc) = true
        ↔ rc = 0) := by
  refine ⟨?_, ?_, ?_, rfl, ?_⟩
  · intro k hk
    exact Authenticator.initRetryAux_some_lt env mr mr 0 k (by omega) hk
  · intro hfail
    have hnone := Authenticator.initRetry_all_fail env mr hmr hfail
    refine ⟨hnone, ?_⟩
    have h1 : (Authenticator.initRetry env mr).1 = none := by rw [hnone]
    unfold Authenticator.perform_sso_login_selenium
    rw [h1]
    simp [hU, hP, hC]
  · intro hsome hflow
    obtain ⟨k, hk⟩ := Option.isSome_iff_exists.mp hsome
    unfold Authenticator.perform_sso_login_selenium
    rw [hk]
    simp only [hU, hP, hC]
    cases hfl : env.flow with
    | timeoutErr => simp
    | otherError => simp
    | success => exact absurd hfl hflow
  · intro rc
    unfold Authenticator.perform_sso_login_cli
    exact beq_iff_eq

/-- A browser environment whose first two initialization attempts fail, the
third succeeds, and the authentication flow then times out. -/
def browserEnvEx : Authenticator.BrowserEnv :=
  { haveUsername := true, havePassword := true, configOk := true,
    initFails := fun i => decide (i < 2), flow := Authenticator.AuthFlow.timeoutErr }

/-- C4 witness: with initialization succeeding on the third of three
attempts and the flow timing out, the selenium login returns the Failure
result `ok false` without raising. -/
theorem c4_login_retry_witness :
    Authenticator.perform_sso_login_selenium 3 browserEnvEx = Except.ok false := by
  exact (c4_login_retry 3 browserEnvEx (by decide) rfl rfl rfl).2.2.1 rfl (by decide)

/-- C9 counterexample: with an empty extracted session token (the
`CalledProcessError` fallback), the rewrite strips the old
`AWS_SESSION_TOKEN=` line but appends no fresh one — the written file holds
lines for only two of the three keys, contrary to the claim that fresh
lines for all three keys are appended. -/
theorem c9_cex :
    Authenticator.extract_and_update_credentials "AKIA" "SECRET" (some "")
        ["FOO=bar\n", "AWS_SESSION_TOKEN=old\n"]
      = some ["FOO=bar\n", "AWS_ACCESS_KEY_ID=AKIA\n", "AWS_SECRET_ACCESS_KEY=SECRET\n"]
    ∧ (["FOO=bar\n", "AWS_ACCESS_KEY_ID=AKIA\n", "AWS_SECRET_ACCESS_KEY=SECRET\n"].all
        (fun l => !(("AWS_SESSION_TOKEN=".data).isPrefixOf l.data))) = true := by
  constructor
  · decide
  · decide

/-- C9 amended: on a successful extraction (non-empty access and secret
keys) the rewrite keeps exactly the prior lines starting with none of the
three credential keys, in their original order (a sublist of the prior
contents), then appends fresh `AWS_ACCESS_KEY_ID=` and
`AWS_SECRET_ACCESS_KEY=` lines and — only when the extracted session token
is non-empty — a fresh `AWS_SESSION_TOKEN=` line. -/
theorem c9_env_update (prior : List String) (ak sk tok : String)
    (hak : ak ≠ "") (hsk : sk ≠ "") :
    Authenticator.extract_and_update_credentials ak sk (some tok) prior =
      some ((prior.filter Authenticator.keepEnvLine) ++
        (["AWS_ACCESS_KEY_ID=" ++ ak ++ "\n", "AWS_SECRET_ACCESS_KEY=" ++ sk ++ "\n"] ++
          (if tok = "" then [] else ["AWS_SESSION_TOKEN=" ++ tok ++ "\n"])))
    ∧ (prior.filter Authenticator.keepEnvLine).Sublist prior
    ∧ (∀ l ∈ prior.filter Authenticator.keepEnvLine, Authenticator.keepEnvLine l = true) := by
  refine ⟨?_, List.filter_sublist prior, fun l hl => List.of_mem_filter hl⟩
  unfold Authenticator.extract_and_update_credentials Authenticator.updateEnvLines
  rw [if_neg (by simp [hak, hsk])]
  by_cases ht : tok = ""
  · simp [ht]
  · simp [ht]

/-- C9 witness: a concrete rewrite with a non-empty session token. -/
theorem c9_env_update_witness :
    Authenticator.extract_and_update_credentials "AK" "SK" (some "TOK") ["FOO=bar\n"] =
      some (["FOO=bar\n"].filter Authenticator.keepEnvLine ++
        (["AWS_ACCESS_KEY_ID=" ++ "AK" ++ "\n", "AWS_SECRET_ACCESS_KEY=" ++ "SK" ++ "\n"] ++
          (if "TOK" = "" then [] else ["AWS_SESSION_TOKEN=" ++ "TOK" ++ "\n"]))) := by
  exact (c9_env_update ["FOO=bar\n"] "AK" "SK" "TOK" (by decide) (by decide)).1
